import Mathlib

/-!
Shallow embedding of the mdformat VS Code extension core
(`src/extension.ts`): runtime resolution, the process-wide availability
cache, command-line assembly, and subprocess outcome handling.

Each definition is translated from the TypeScript source; comments cite
the functions they embed. Effectful pieces (the module-level mutable
cache, the log channel, `vscode.window.showErrorMessage`) are made
explicit: functions take and return a `Cache` value and return the list
of log lines / error-popup messages they would emit.
-/

namespace MdformatVscode

/-! ## String helpers

JavaScript `String.prototype.includes` (substring containment), used by
the PATH probe `commandOutput.toLowerCase().includes("python")`. -/

/-- `listStartsWith needle hay` is true when `needle` is a prefix of `hay`
(character-by-character). -/
def listStartsWith : List Char → List Char → Bool
  | [], _ => true
  | _ :: _, [] => false
  | a :: as, b :: bs => a == b && listStartsWith as bs

/-- `listContainsSub needle hay` is true when `needle` occurs contiguously
inside `hay` (the empty needle occurs in every list, matching JS
`"s".includes("")`). -/
def listContainsSub (needle : List Char) : List Char → Bool
  | [] => needle.isEmpty
  | c :: cs => listStartsWith needle (c :: cs) || listContainsSub needle cs

/-- JS `hay.includes(needle)`. -/
def strContainsSub (hay needle : String) : Bool :=
  listContainsSub needle.toList hay.toList

/-- JS `s.trim()`: strip leading and trailing whitespace.  (Defined on
the character list so that concrete instances evaluate by `decide`.) -/
def jsTrim (s : String) : String :=
  ⟨((s.toList.dropWhile Char.isWhitespace).reverse.dropWhile Char.isWhitespace).reverse⟩

/-- JS `s.toLowerCase()` (on the ASCII letters the probe cares about). -/
def jsToLower (s : String) : String :=
  ⟨s.toList.map Char.toLower⟩

/-! ## Data model: the process-wide availability cache

`extension.ts` lines 6-8: two module-level mutable variables,
`mdformatFound : boolean | undefined` and
`pythonPathUsedForLastCheck : string | undefined`.
`none` models JS `undefined`/`null`.  In the spec's vocabulary the
verdict is Unknown (`none`), Available (`some true`) or Unavailable
(`some false`). -/

structure Cache where
  mdformatFound : Option Bool
  pythonPathUsedForLastCheck : Option String
deriving DecidableEq, Repr

/-- Initial state of the module-level variables (both `undefined`). -/
def initialCache : Cache := ⟨none, none⟩

/-- The `onDidChangeExecutionDetails` callback registered in `activate`
(lines 197-207 and 210-219): it sets `mdformatFound = undefined` and
touches nothing else. -/
def onExecutionDetailsChanged (cache : Cache) : Cache :=
  { cache with mdformatFound := none }

/-! ## Command-line assembly (`provideDocumentFormattingEdits`, lines 283-306) -/

/-- The `mdformat.wrap` configuration value: JS `string | number`. -/
inductive WrapOption where
  | str (s : String)
  | num (n : Int)
deriving DecidableEq, Repr

/-- JS `String(wrap)`. -/
def wrapToString : WrapOption → String
  | .str s => s
  | .num n => toString n

/-- JS `wrap !== "keep" || typeof wrap === "number"` (line 287). -/
def wrapFlagIncluded : WrapOption → Bool
  | .str s => s != "keep" || false
  | .num _ => true

/-- The argument list built before `cp.spawn` (lines 283-306):
`["-m","mdformat"]`, then `--wrap` when `wrapFlagIncluded`, then
`--end-of-line` unconditionally, then `--no-validate` when the flag is
set, then the user's `mdformat.args`, then the stdin sentinel `"-"`. -/
def buildArgs (wrap : WrapOption) (endOfLine : String) (noValidate : Bool)
    (customArgs : List String) : List String :=
  let args : List String := ["-m", "mdformat"]
  let args := if wrapFlagIncluded wrap then args ++ ["--wrap", wrapToString wrap] else args
  let args := args ++ ["--end-of-line", endOfLine]
  let args := if noValidate then args ++ ["--no-validate"] else args
  let args := args ++ customArgs
  args ++ ["-"]

/-! ## Edit computation (lines 375-384) -/

/-- A text edit, with the range given by character offsets into the
original document (`document.positionAt(0)` ..
`document.positionAt(originalText.length)`). -/
structure TextEdit where
  rangeStart : Nat
  rangeEnd : Nat
  newText : String
deriving DecidableEq, Repr

/-- Lines 375-384: on a clean exit, resolve with a single full-range
replacement when `stdout.length > 0 && stdout !== originalText`, and
with the empty edit list otherwise ("No changes or empty output"). -/
def computeFormatEdits (originalText stdout : String) : List TextEdit :=
  if stdout.length > 0 && stdout != originalText then
    [⟨0, originalText.length, stdout⟩]
  else
    []

/-! ## Subprocess outcome handling

The promise body of `provideDocumentFormattingEdits` (lines 318-389)
installs two handlers on the spawned process: `proc.on("error", ...)`
(lines 333-341) and `proc.on("close", ...)` (lines 343-385).  We embed
the pair of handlers as one step function over the observable events of
a finished invocation. -/

/-- The spec taxonomy (§3 InvocationOutcome), carried by how the promise
settles: `reject(err)` in the error handler is `processStartFailure`,
`reject("Cancelled")` is `cancelled`, `reject("Terminated by signal S")`
is `terminatedBySignal S`, `reject(stderr or the generic fallback)` is
`toolReportedFailure`, and `resolve(edits)` on a clean exit is
`success stdout`. -/
inductive InvocationOutcome where
  | success (stdout : String)
  | toolReportedFailure (exitCode : Int) (message : String)
  | processStartFailure (reason : String)
  | terminatedBySignal (signalName : String)
  | cancelled
deriving DecidableEq, Repr

/-- Observable events of one finished invocation:
`startError` is `some msg` when `proc.on("error")` fired (the process
could not be started; the promise settles there first);
`cancellationRequested` is `token.isCancellationRequested` at the time
the `close` event runs; `signalName`/`exitCode` are the `close`
arguments (node delivers a non-null exit code exactly when the signal is
null, so `exitCode` is only meaningful when `signalName = none`). -/
structure InvocationEvents where
  startError : Option String
  cancellationRequested : Bool
  signalName : Option String
  exitCode : Int
deriving DecidableEq, Repr

/-- Result of running the two handlers: how the promise settled, the
edit list it resolved with (empty unless `success`), the
`vscode.window.showErrorMessage` calls made (in order), and the
module-level cache after the handlers ran. -/
structure StepResult where
  outcome : InvocationOutcome
  edits : List TextEdit
  messages : List String
  cache : Cache
deriving Repr

/-- The error handler (lines 333-341) and close handler (lines 343-385)
of `provideDocumentFormattingEdits`, given the runtime it spawned
(`pythonExecutableForMdformat`), the accumulated `stdout`/`stderr`, the
original document text and the cache state at entry. -/
def invocationStep (ev : InvocationEvents) (stdout stderr originalText : String)
    (pythonExecutableForMdformat : String) (cache : Cache) : StepResult :=
  match ev.startError with
  | some reason =>
      -- lines 333-341: showErrorMessage, downgrade the cache, reject(err)
      { outcome := .processStartFailure reason
        edits := []
        messages := ["mdformat failed to start: " ++ reason ++ ". Is \"" ++
          pythonExecutableForMdformat ++ "\" a valid Python path?"]
        cache := { mdformatFound := some false
                   pythonPathUsedForLastCheck := some pythonExecutableForMdformat } }
  | none =>
      if ev.cancellationRequested then
        -- lines 344-347: info log only, reject("Cancelled")
        { outcome := .cancelled, edits := [], messages := [], cache := cache }
      else
        match ev.signalName with
        | some sig =>
            -- lines 349-358
            { outcome := .terminatedBySignal sig
              edits := []
              messages := ["mdformat process terminated unexpectedly (signal: " ++ sig ++ ")."]
              cache := cache }
        | none =>
            if ev.exitCode != 0 then
              -- lines 360-372: showErrorMessage(detailedError),
              -- reject(stderr || generic)
              let detailedError :=
                if jsTrim stderr = "" then
                  "mdformat exited with code " ++ toString ev.exitCode ++
                    ". Check \"Output > mdformat\" for details."
                else jsTrim stderr
              { outcome := .toolReportedFailure ev.exitCode
                  (if stderr = "" then "mdformat exited with code " ++ toString ev.exitCode
                   else stderr)
                edits := []
                messages := ["mdformat formatting failed: " ++ detailedError]
                cache := cache }
            else
              -- lines 375-384
              { outcome := .success stdout
                edits := computeFormatEdits originalText stdout
                messages := []
                cache := cache }

/-! ## Availability check and recheck policy -/

/-- `checkMdformatAvailability` (lines 131-169), after the
`pythonToCheck || getPythonInterpreter(...)` resolution has produced
`interpreterPath` (`none` models the falsy case of lines 138-145).
`verifier p` models whether `"p" -m mdformat --version` exits cleanly.
Returns (found, new cache state, whether the verification subprocess was
spawned). -/
def checkMdformatAvailability (verifier : String → Bool)
    (interpreterPath : Option String) : Bool × Cache × Bool :=
  match interpreterPath with
  | none => (false, ⟨some false, none⟩, false)
  | some p =>
      if p = "" then (false, ⟨some false, none⟩, false)
      else
        let found := verifier p
        (found, ⟨some found, some p⟩, true)

/-- The recheck predicate of lines 253-256: check is needed when the
verdict is undefined, or the last-checked interpreter differs from the
one about to be used, or the verdict is false. -/
def needsCheck (cache : Cache) (currentInterpreterForFormatting : String) : Bool :=
  cache.mdformatFound == none ||
  cache.pythonPathUsedForLastCheck != some currentInterpreterForFormatting ||
  cache.mdformatFound == some false

/-- Lines 253-266: run `checkMdformatAvailability` exactly when
`needsCheck`; otherwise keep the cache as is.  Returns the cache after
the step and whether the verification subprocess was spawned. -/
def ensureChecked (verifier : String → Bool) (candidate : String)
    (cache : Cache) : Cache × Bool :=
  if needsCheck cache candidate then
    let r := checkMdformatAvailability verifier (some candidate)
    (r.2.1, r.2.2)
  else
    (cache, false)

/-! ## Runtime resolution (`getPythonInterpreter`, lines 21-122)

The function consults three sources in order; we make its environment
explicit.  Log entries written to `outputChannel` are returned alongside
the result. -/

/-- Environment observed by `getPythonInterpreter`:
`userPythonPath` is the `mdformat.pythonPath` setting (`none` = JS
null); `pathExists p` is whether `fs.accessSync(p, F_OK)` succeeds;
`extensionPresent`/`extensionActive`/`extensionExports` describe the
`ms-python.python` extension (present, `isActive` after the activation
attempt, `exports && exports.settings` usable); `execCommand` is
`getExecutionDetails(uri)?.execCommand`; `isWindows` selects the probe
list; `probeOutput c` is the output of `execSync('"c" --version')`, or
`none` when that command throws. -/
structure ResolverEnv where
  userPythonPath : Option String
  pathExists : String → Bool
  extensionPresent : Bool
  extensionActive : Bool
  extensionExports : Bool
  execCommand : Option (List String)
  isWindows : Bool
  probeOutput : String → Option String

/-- Lines 97-99: the platform-specific ordered candidate list. -/
def commonPythons (isWindows : Bool) : List String :=
  if isWindows then ["python.exe", "python3.exe", "py.exe"]
  else ["python3", "python"]

/-- The loop of lines 101-116: probe each candidate with `--version`;
return the first whose output (lowercased) includes "python"; a failing
command or a non-matching output moves on to the next candidate. -/
def probeCommonPythons (probeOutput : String → Option String) :
    List String → Option String × List String
  | [] => (none, [])
  | pyCmd :: rest =>
      match probeOutput pyCmd with
      | some commandOutput =>
          if strContainsSub (jsToLower commandOutput) "python" then
            (some pyCmd, ["Found global Python: " ++ pyCmd])
          else probeCommonPythons probeOutput rest
      | none => probeCommonPythons probeOutput rest

/-- Source 3 (lines 95-121): the PATH probe, with its surrounding log
lines. -/
def globalProbeStep (env : ResolverEnv) : Option String × List String :=
  let r := probeCommonPythons env.probeOutput (commonPythons env.isWindows)
  match r.1 with
  | some c => (some c, "Trying to find a global Python interpreter in PATH..." :: r.2)
  | none =>
      (none, "Trying to find a global Python interpreter in PATH..." :: r.2 ++
        ["No suitable Python interpreter found through settings, Python extension, or system PATH."])

/-- Source 2 (lines 46-93): the `ms-python.python` extension.  Returns
`execCommand[0]` when the extension is present, active with usable
exports, and reports a non-empty `execCommand`; in every other case it
falls through to the PATH probe.  (The `catch` of lines 87-93 also falls
through; it is not modelled separately since no claim depends on the
thrown-error log line.) -/
def extensionStep (env : ResolverEnv) : Option String × List String :=
  if env.extensionPresent then
    if env.extensionActive && env.extensionExports then
      match env.execCommand with
      | some (interpreterFromExtension :: _) =>
          (some interpreterFromExtension,
            ["Using Python interpreter from ms-python.python extension: " ++
              interpreterFromExtension])
      | _ =>
          let r := globalProbeStep env
          (r.1, "ms-python.python extension is active, but no interpreter selected or found through it." :: r.2)
    else
      let r := globalProbeStep env
      (r.1, "ms-python.python extension present but not fully active or exports not available when queried for path." :: r.2)
  else
    let r := globalProbeStep env
    (r.1, "ms-python.python extension not installed. Skipping its interpreter discovery." :: r.2)

/-- `getPythonInterpreter` (lines 21-122).  Source 1 (lines 27-44): the
`mdformat.pythonPath` setting is tried when it is non-null, truthy,
trim-non-empty and not the string "null"; if `fs.accessSync` fails the
failure is logged and resolution proceeds to source 2. -/
def getPythonInterpreter (env : ResolverEnv) : Option String × List String :=
  match env.userPythonPath with
  | some userPythonPath =>
      if userPythonPath != "" && jsTrim userPythonPath != "" && userPythonPath != "null" then
        if env.pathExists userPythonPath then
          (some userPythonPath,
            ["Using Python interpreter from \"mdformat.pythonPath\": " ++ userPythonPath])
        else
          let r := extensionStep env
          (r.1,
            ("Using Python interpreter from \"mdformat.pythonPath\": " ++ userPythonPath) ::
            ("Provided pythonPath " ++ userPythonPath ++
              " is not a valid file. Trying to find another interpreter.") :: r.2)
      else extensionStep env
  | none => extensionStep env

/-! ## Theorems -/

/-- C1: `ensureChecked` runs a fresh verification via the verifier if
and only if the cached verdict is Unknown (`mdformatFound = none`), or
the cached verdict's associated runtime differs from the candidate, or
the cached verdict is Unavailable (`mdformatFound = some false`); and
when the verdict is Available for that same candidate, the verifier is
not invoked and the cache state is used unchanged. -/
theorem ensureChecked_recheck_policy (verifier : String → Bool) (candidate : String)
    (cache : Cache) (hc : candidate ≠ "") :
    ((ensureChecked verifier candidate cache).2 = true ↔
      (cache.mdformatFound = none ∨
       cache.pythonPathUsedForLastCheck ≠ some candidate ∨
       cache.mdformatFound = some false)) ∧
    ((cache.mdformatFound = some true ∧ cache.pythonPathUsedForLastCheck = some candidate) →
      ensureChecked verifier candidate cache = (cache, false)) := by
  obtain ⟨mf, pp⟩ := cache
  constructor
  · by_cases hp : pp = some candidate <;>
      rcases mf with _ | _ | _ <;>
      simp [ensureChecked, needsCheck, checkMdformatAvailability, hc, hp]
  · rintro ⟨hf, hp⟩
    simp only at hf hp
    subst hf hp
    simp [ensureChecked, needsCheck]

/-- Witness for `ensureChecked_recheck_policy` at a concrete cache and
candidate: with an Unknown verdict the verifier is invoked. -/
theorem ensureChecked_recheck_policy_witness :
    (ensureChecked (fun _ => true) "py" ⟨none, none⟩).2 = true :=
  (ensureChecked_recheck_policy (fun _ => true) "py" ⟨none, none⟩
    (by decide)).1.mpr (Or.inl rfl)

/-- C8: the plugin-change invalidation callback sets the cached verdict
to Unknown and leaves the last-checked-runtime field unchanged. -/
theorem onExecutionDetailsChanged_only_clears_verdict (cache : Cache) :
    (onExecutionDetailsChanged cache).mdformatFound = none ∧
    (onExecutionDetailsChanged cache).pythonPathUsedForLastCheck =
      cache.pythonPathUsedForLastCheck :=
  ⟨rfl, rfl⟩

/-- C7: the argument list is the fixed-order concatenation: the module
selector `-m mdformat`, then `--wrap` with its value exactly when the
wrap option differs from the string "keep", then `--end-of-line` with
its value unconditionally, then `--no-validate` exactly when the
validation-disable option is true, then the pass-through arguments in
order, then the final stdin sentinel `-`. -/
theorem buildArgs_fixed_order (wrap : WrapOption) (endOfLine : String)
    (noValidate : Bool) (customArgs : List String) :
    buildArgs wrap endOfLine noValidate customArgs =
      ["-m", "mdformat"] ++
      (if wrap = WrapOption.str "keep" then [] else ["--wrap", wrapToString wrap]) ++
      ["--end-of-line", endOfLine] ++
      (if noValidate then ["--no-validate"] else []) ++
      customArgs ++ ["-"] := by
  rcases wrap with s | n
  · by_cases hs : s = "keep" <;>
      cases noValidate <;>
      simp [buildArgs, wrapFlagIncluded, hs]
  · cases noValidate <;> simp [buildArgs, wrapFlagIncluded]

/-- C2 counterexample: the claim "if the output differs from the input,
the orchestrator returns exactly one edit replacing the entire original
content" fails at original text "x" with output "": the output differs
from the input, yet the code resolves with the empty edit list (the
guard also requires `stdout.length > 0`), not with the full-range
replacement the claim demands. -/
theorem computeFormatEdits_empty_output_counterexample :
    ("" : String) ≠ "x" ∧
    computeFormatEdits "x" "" ≠ [⟨0, ("x" : String).length, ""⟩] ∧
    computeFormatEdits "x" "" = [] := by
  refine ⟨by decide, ?_, by rfl⟩
  rw [show computeFormatEdits "x" "" = [] from rfl]
  simp

/-- C2 (amended): on a successful invocation, if the output is identical
to the input or the output is empty, no edit is reported; if the output
is non-empty and differs from the input, exactly one edit replaces the
entire original document content (offsets 0 .. length) with the output
text. -/
theorem computeFormatEdits_full_replacement (originalText stdout : String)
    (hne : stdout ≠ "") (hdiff : stdout ≠ originalText) :
    computeFormatEdits originalText stdout = [⟨0, originalText.length, stdout⟩] ∧
    computeFormatEdits originalText originalText = [] ∧
    computeFormatEdits originalText "" = [] := by
  refine ⟨?_, ?_, ?_⟩
  · have hlen : stdout.length > 0 := by
      rcases stdout with ⟨l⟩
      cases l with
      | nil => exact absurd rfl hne
      | cons c cs => simp [String.length]
    simp [computeFormatEdits, hlen, hdiff]
  · simp [computeFormatEdits]
  · simp [computeFormatEdits]

/-- Witness for `computeFormatEdits_full_replacement` at original text
"# H\n\n" and output "# H\n" (the spec §8 example). -/
theorem computeFormatEdits_full_replacement_witness :
    computeFormatEdits "# H\n\n" "# H\n" = [⟨0, ("# H\n\n" : String).length, "# H\n"⟩] ∧
    computeFormatEdits "# H\n\n" "# H\n\n" = [] ∧
    computeFormatEdits "# H\n\n" "" = [] :=
  computeFormatEdits_full_replacement "# H\n\n" "# H\n" (by decide) (by decide)

/-- C10: a successful invocation (no start error, not cancelled, no
signal, exit code 0) whose accumulated stdout is empty resolves with no
edit, whatever the original document text is. -/
theorem invocationStep_empty_stdout_no_edit (ev : InvocationEvents)
    (stderr originalText runtime : String) (cache : Cache)
    (hse : ev.startError = none) (hcan : ev.cancellationRequested = false)
    (hsig : ev.signalName = none) (hcode : ev.exitCode = 0) :
    (invocationStep ev "" stderr originalText runtime cache).outcome = .success "" ∧
    (invocationStep ev "" stderr originalText runtime cache).edits = [] := by
  obtain ⟨se, can, sig, code⟩ := ev
  simp only at hse hcan hsig hcode
  subst hse hcan hsig hcode
  simp [invocationStep, computeFormatEdits]

/-- Witness for `invocationStep_empty_stdout_no_edit`: a clean exit with
empty stdout on the non-empty document "x" yields no edit. -/
theorem invocationStep_empty_stdout_no_edit_witness :
    (invocationStep ⟨none, false, none, 0⟩ "" "" "x" "py" initialCache).outcome =
      .success "" ∧
    (invocationStep ⟨none, false, none, 0⟩ "" "" "x" "py" initialCache).edits = [] :=
  invocationStep_empty_stdout_no_edit ⟨none, false, none, 0⟩ "" "x" "py" initialCache
    rfl rfl rfl rfl

/-- C3: strict priority order of outcome classification.  A start
failure yields `processStartFailure`; otherwise an observed cancellation
yields `cancelled` regardless of signal or exit code; otherwise a signal
yields `terminatedBySignal`; otherwise a non-zero exit code yields
`toolReportedFailure` carrying the accumulated stderr, falling back to
the generic "exited with code N" message when stderr is empty; otherwise
the outcome is `success` with the accumulated stdout. -/
theorem invocationStep_outcome_classification (ev : InvocationEvents)
    (stdout stderr originalText runtime : String) (cache : Cache) :
    (∀ r, ev.startError = some r →
      (invocationStep ev stdout stderr originalText runtime cache).outcome =
        .processStartFailure r) ∧
    (ev.startError = none → ev.cancellationRequested = true →
      (invocationStep ev stdout stderr originalText runtime cache).outcome =
        .cancelled) ∧
    (ev.startError = none → ev.cancellationRequested = false →
      ∀ s, ev.signalName = some s →
      (invocationStep ev stdout stderr originalText runtime cache).outcome =
        .terminatedBySignal s) ∧
    (ev.startError = none → ev.cancellationRequested = false → ev.signalName = none →
      ev.exitCode ≠ 0 →
      (invocationStep ev stdout stderr originalText runtime cache).outcome =
        .toolReportedFailure ev.exitCode
          (if stderr = "" then "mdformat exited with code " ++ toString ev.exitCode
           else stderr)) ∧
    (ev.startError = none → ev.cancellationRequested = false → ev.signalName = none →
      ev.exitCode = 0 →
      (invocationStep ev stdout stderr originalText runtime cache).outcome =
        .success stdout) := by
  obtain ⟨se, can, sig, code⟩ := ev
  refine ⟨?_, ?_, ?_, ?_, ?_⟩
  · rintro r rfl
    simp [invocationStep]
  · rintro rfl rfl
    simp [invocationStep]
  · rintro rfl rfl s rfl
    simp [invocationStep]
  · rintro rfl rfl rfl hc
    simp only at hc
    simp [invocationStep, hc]
  · rintro rfl rfl rfl hc
    simp only at hc
    simp [invocationStep, hc]

/-- Witness for `invocationStep_outcome_classification`: a start error
at a concrete invocation is classified as `processStartFailure`. -/
theorem invocationStep_outcome_classification_witness :
    (invocationStep ⟨some "spawn ENOENT", false, none, 0⟩ "" "" "x" "py"
      initialCache).outcome = .processStartFailure "spawn ENOENT" :=
  (invocationStep_outcome_classification ⟨some "spawn ENOENT", false, none, 0⟩
    "" "" "x" "py" initialCache).1 "spawn ENOENT" rfl

/-- C4: a start failure downgrades the cache to (Unavailable, attempted
runtime); a non-zero exit of a successfully started process leaves the
cache untouched, so an Available verdict for that runtime stays
Available. -/
theorem invocationStep_cache_policy (ev : InvocationEvents)
    (stdout stderr originalText runtime : String) (cache : Cache) :
    (∀ r, ev.startError = some r →
      (invocationStep ev stdout stderr originalText runtime cache).cache =
        ⟨some false, some runtime⟩) ∧
    (ev.startError = none → ev.cancellationRequested = false → ev.signalName = none →
      ev.exitCode ≠ 0 →
      (invocationStep ev stdout stderr originalText runtime cache).cache = cache) ∧
    (ev.startError = none → ev.cancellationRequested = false → ev.signalName = none →
      ev.exitCode ≠ 0 → cache.mdformatFound = some true →
      (invocationStep ev stdout stderr originalText runtime cache).cache.mdformatFound =
        some true) := by
  obtain ⟨se, can, sig, code⟩ := ev
  refine ⟨?_, ?_, ?_⟩
  · rintro r rfl
    simp [invocationStep]
  · rintro rfl rfl rfl hc
    simp only at hc
    simp [invocationStep, hc]
  · rintro rfl rfl rfl hc hf
    simp only at hc
    simp [invocationStep, hc, hf]

/-- Witness for `invocationStep_cache_policy`: a concrete start failure
sets the cache to (Unavailable, "py"), and a concrete exit code 1 with
an Available cache leaves the verdict Available. -/
theorem invocationStep_cache_policy_witness :
    (invocationStep ⟨some "spawn ENOENT", false, none, 0⟩ "" "" "x" "py"
      initialCache).cache = ⟨some false, some "py"⟩ ∧
    (invocationStep ⟨none, false, none, 1⟩ "" "syntax error" "x" "py"
      ⟨some true, some "py"⟩).cache = ⟨some true, some "py"⟩ :=
  ⟨(invocationStep_cache_policy ⟨some "spawn ENOENT", false, none, 0⟩
      "" "" "x" "py" initialCache).1 "spawn ENOENT" rfl,
   (invocationStep_cache_policy ⟨none, false, none, 1⟩
      "" "syntax error" "x" "py" ⟨some true, some "py"⟩).2.1 rfl rfl rfl
      (by decide)⟩

/-- C9: whenever an invocation ends in the `cancelled` outcome, no
`showErrorMessage` call is made on that path. -/
theorem invocationStep_cancelled_silent (ev : InvocationEvents)
    (stdout stderr originalText runtime : String) (cache : Cache)
    (h : (invocationStep ev stdout stderr originalText runtime cache).outcome =
      .cancelled) :
    (invocationStep ev stdout stderr originalText runtime cache).messages = [] := by
  obtain ⟨se, can, sig, code⟩ := ev
  cases se <;> cases can <;> cases sig <;>
    by_cases hc : code = 0 <;>
    simp_all [invocationStep]

/-- Witness for `invocationStep_cancelled_silent`: a cancellation
observed at close time on a concrete invocation produces no error
popup. -/
theorem invocationStep_cancelled_silent_witness :
    (invocationStep ⟨none, true, none, 0⟩ "" "" "x" "py" initialCache).messages =
      [] :=
  invocationStep_cancelled_silent ⟨none, true, none, 0⟩ "" "" "x" "py" initialCache
    rfl

/-- C5: when the configured path is set, truthy, trim-non-empty and not
the sentinel "null", but does not exist on disk, source 1 never returns
it: the failure is logged and resolution proceeds to the plugin source
(`extensionStep`), which itself proceeds to the PATH probe
(`globalProbeStep`) when the plugin yields nothing (shown here for the
plugin-absent case). -/
theorem getPythonInterpreter_invalid_path_falls_through (env : ResolverEnv)
    (s : String) (hset : env.userPythonPath = some s) (hne : s ≠ "")
    (htrim : jsTrim s ≠ "") (hnull : s ≠ "null") (hex : env.pathExists s = false) :
    (getPythonInterpreter env).1 = (extensionStep env).1 ∧
    ("Provided pythonPath " ++ s ++
      " is not a valid file. Trying to find another interpreter.") ∈
      (getPythonInterpreter env).2 ∧
    (env.extensionPresent = false →
      (getPythonInterpreter env).1 = (globalProbeStep env).1) := by
  refine ⟨?_, ?_, ?_⟩
  · simp [getPythonInterpreter, hset, hne, htrim, hnull, hex]
  · simp [getPythonInterpreter, hset, hne, htrim, hnull, hex]
  · intro hp
    simp [getPythonInterpreter, extensionStep, hset, hne, htrim, hnull, hex, hp]

/-- Witness for `getPythonInterpreter_invalid_path_falls_through` at a
concrete environment: the configured path "/bad/python" does not exist,
the plugin is absent, and every PATH probe fails. -/
theorem getPythonInterpreter_invalid_path_falls_through_witness :
    (getPythonInterpreter ⟨some "/bad/python", fun _ => false, false, false, false,
        none, false, fun _ => none⟩).1 =
      (extensionStep ⟨some "/bad/python", fun _ => false, false, false, false,
        none, false, fun _ => none⟩).1 ∧
    ("Provided pythonPath " ++ "/bad/python" ++
      " is not a valid file. Trying to find another interpreter.") ∈
      (getPythonInterpreter ⟨some "/bad/python", fun _ => false, false, false, false,
        none, false, fun _ => none⟩).2 ∧
    ((⟨some "/bad/python", fun _ => false, false, false, false,
        none, false, fun _ => none⟩ : ResolverEnv).extensionPresent = false →
      (getPythonInterpreter ⟨some "/bad/python", fun _ => false, false, false, false,
        none, false, fun _ => none⟩).1 =
        (globalProbeStep ⟨some "/bad/python", fun _ => false, false, false, false,
          none, false, fun _ => none⟩).1) :=
  getPythonInterpreter_invalid_path_falls_through
    ⟨some "/bad/python", fun _ => false, false, false, false, none, false, fun _ => none⟩
    "/bad/python" rfl (by decide) (by decide) (by decide) rfl

/-- C6: in the PATH probe over the platform-specific candidate list, a
candidate whose probe command fails, or whose version output (lowercased)
does not contain "python", is skipped in favour of the remaining
candidates; the first candidate whose output does contain it is returned
as the bare command string from the list, unchanged (not resolved to any
absolute path). -/
theorem probeCommonPythons_skip_and_hit (p : String → Option String)
    (pyCmd : String) (rest : List String) :
    (∀ out, p pyCmd = some out → strContainsSub (jsToLower out) "python" = false →
      probeCommonPythons p (pyCmd :: rest) = probeCommonPythons p rest) ∧
    (p pyCmd = none →
      probeCommonPythons p (pyCmd :: rest) = probeCommonPythons p rest) ∧
    (∀ out, p pyCmd = some out → strContainsSub (jsToLower out) "python" = true →
      (probeCommonPythons p (pyCmd :: rest)).1 = some pyCmd) := by
  refine ⟨?_, ?_, ?_⟩
  · intro out hout hmiss
    simp [probeCommonPythons, hout, hmiss]
  · intro hout
    simp [probeCommonPythons, hout]
  · intro out hout hhit
    simp [probeCommonPythons, hout, hhit]

/-- Witness for `probeCommonPythons_skip_and_hit`: a probe whose
"python3" answer lacks the substring and is therefore skipped in favour
of "python". -/
theorem probeCommonPythons_skip_and_hit_witness :
    probeCommonPythons
      (fun c => if c = "python3" then some "command not found" else
        if c = "python" then some "Python 3.11.2" else none)
      ("python3" :: ["python"]) =
    probeCommonPythons
      (fun c => if c = "python3" then some "command not found" else
        if c = "python" then some "Python 3.11.2" else none)
      ["python"] :=
  (probeCommonPythons_skip_and_hit
    (fun c => if c = "python3" then some "command not found" else
      if c = "python" then some "Python 3.11.2" else none)
    "python3" ["python"]).1 "command not found" (by decide) (by decide)

end MdformatVscode
